import Mathlib

/-!
Verification of the daemon lifecycle core of `django-initd` (`initd.py`)
against its natural-language specification.

The embedding models the observable state shared between the daemon, the
control process and the operator — the pid file and the set of live pids —
together with an effect trace recording logging, stdout output, signal
sends, daemonization and callback invocations.  The control verbs
`start`, `stop`, `restart`, `status` are translated from `Initd` in
`initd.py`; the run loop and the SIGTERM/SIGALRM handlers installed by
`Initd.start` are modelled as a step machine driven by a schedule of
signal deliveries, which — per the source's single-threaded model —
interrupt the loop between iterations.
-/

/-- Exceptions the modelled code can raise.  `valueError` is Python's
`ValueError` (from `int()` on a malformed string); `fileNotFound` is the
`OSError`/`FileNotFoundError` raised by `os.remove` on a missing file. -/
inductive PyExc where
  | valueError
  | fileNotFound
  deriving DecidableEq, Repr

/-- Observable effects emitted by the code, in program order. -/
inductive Eff where
  | logWarn (msg : String)
  | logError (msg : String)
  | logInfo (msg : String)
  | logDebug (msg : String)
  | logException
  | stdout (s : String)
  | daemonize
  | setUser (user : String)
  | writePid (pid : Int)
  | removePid
  | kill (pid : Int) (sig : Nat)
  | callRun (i : Nat)
  | callExit
  | observeFlag (b : Bool)
  | setStopFlag
  | armAlarm (secs : Nat)
  deriving DecidableEq, Repr

/-- The cross-process shared state: the pid file (its raw textual contents
when it exists) and the set of pids for which `os.kill(pid, 0)` succeeds. -/
structure World where
  pidFile : Option String
  livePids : List Int
  deriving DecidableEq, Repr

/-- `os.path.exists(self.pid_file)`. -/
def os_path_exists (w : World) : Bool :=
  w.pidFile.isSome

/-- `os.kill(pid, 0)` as a liveness probe: `true` when the signal can be
delivered, `false` when the probe raises `OSError` (no such process). -/
def os_kill_check (w : World) (pid : Int) : Bool :=
  w.livePids.contains pid

/-- `os.remove(self.pid_file)`: deletes the pid file when present and
raises `FileNotFoundError` when it is absent. -/
def os_remove (w : World) : Except PyExc World :=
  match w.pidFile with
  | none => .error .fileNotFound
  | some _ => .ok { w with pidFile := none }

/-- Whitespace stripped by Python's `str.strip` (the kinds relevant to
pid-file contents). -/
def isPySpace (c : Char) : Bool :=
  c = ' ' || c = '\t' || c = '\n' || c = '\r' || c = '\x0b' || c = '\x0c'

/-- Leading-whitespace removal on a character list. -/
def dropSpaces (l : List Char) : List Char :=
  l.dropWhile isPySpace

/-- Decimal value of a digit run: `none` on the empty run or at the first
non-digit character. -/
def digitsVal : List Char → Option Nat → Option Nat
  | [], acc => acc
  | c :: rest, acc =>
    if c.isDigit then
      digitsVal rest (some ((acc.getD 0) * 10 + (c.toNat - '0'.toNat)))
    else none

/-- Python's `int(s)` on the characters of a string: surrounding
whitespace is stripped, one optional sign is allowed, and the rest must be
a nonempty digit run.  `none` exactly when `int()` raises `ValueError`. -/
def parsePyIntChars (l : List Char) : Option Int :=
  let t := (dropSpaces ((dropSpaces l).reverse)).reverse
  match t with
  | '+' :: rest => (digitsVal rest none).map (fun n => (n : Int))
  | '-' :: rest => (digitsVal rest none).map (fun n => -(n : Int))
  | rest => (digitsVal rest none).map (fun n => (n : Int))

/-- Python's `int(s)` on a string (see `parsePyIntChars`). -/
def parsePyInt (s : String) : Option Int :=
  parsePyIntChars s.data

/-- Environment of one verb invocation: the shared world plus the facts
about the host system that the code consults (fork results, user lookup,
privilege-drop and pid-file-write success). -/
structure Env where
  world : World
  /-- pid of the invoking process before `become_daemon` (the pre-fork parent). -/
  parentPid : Int
  /-- `os.getpid()` of the detached process after `become_daemon`. -/
  detachedPid : Int
  /-- whether `pwd.getpwnam(self.user)` succeeds. -/
  userKnown : Bool
  /-- whether `os.setgid`/`os.setuid` succeed. -/
  setuidOk : Bool
  /-- whether opening/writing the pid file in `_create_pid_file` succeeds. -/
  pidWriteOk : Bool
  deriving DecidableEq, Repr

/-- How a verb invocation ended. -/
inductive VerbResult where
  /-- the method returned normally. -/
  | ret
  /-- `sys.exit(code)` during setup (fatal error paths). -/
  | fatalExit (code : Nat)
  /-- an uncaught exception propagated out of the verb. -/
  | raised (e : PyExc)
  /-- `start` completed setup and entered the run loop. -/
  | loop
  deriving DecidableEq, Repr

/-- Result of a verb: how it ended, the world it left behind, and the
effect trace it emitted. -/
structure Outcome where
  result : VerbResult
  world : World
  trace : List Eff
  deriving DecidableEq, Repr

/-- `Initd._create_pid_file`: writes `str(os.getpid())` (the detached
process's pid) to the pid file; on failure logs and exits with status 1.
(The leading underscore of the Python name is dropped for Lean.) -/
def Initd.create_pid_file (env : Env) : Outcome :=
  if env.pidWriteOk then
    ⟨.ret, { env.world with pidFile := some (toString env.detachedPid) },
      [Eff.writePid env.detachedPid]⟩
  else
    ⟨.fatalExit 1, env.world,
      [Eff.logError "Failed to write to pid file, exiting now."]⟩

/-- Privilege-drop phase of `Initd.start` (lines 119-133): when a user is
configured, resolve it (unknown user is fatal) and drop gid then uid
(failure is fatal).  Returns the effects emitted, or the fatal outcome. -/
def Initd.drop_privileges (user : String) (env : Env) : Except Outcome (List Eff) :=
  if user = "" then .ok []
  else if !env.userKnown then
    .error ⟨.fatalExit 1, env.world, [Eff.logError ("User " ++ user ++ " not found.")]⟩
  else if !env.setuidOk then
    .error ⟨.fatalExit 1, env.world, [Eff.logError "Unable to change uid and gid"]⟩
  else .ok [Eff.setUser user]

/-- Continuation of `Initd.start` after the already-running probe found no
live instance. -/
def Initd.start_after_probe (user : String) (env : Env) : Outcome :=
  match Initd.drop_privileges user env with
  | .error o => o
  | .ok privEffs =>
    let o := Initd.create_pid_file env
    match o.result with
    | .ret =>
      ⟨.loop, o.world,
        privEffs ++ [Eff.daemonize] ++ o.trace ++ [Eff.logInfo "Starting"]⟩
    | r => ⟨r, o.world, privEffs ++ [Eff.daemonize] ++ o.trace⟩

/-- `Initd.start` up to entry into the run loop (the loop itself is the
step machine `runLoop` below): probe the pid file for a live instance,
drop privileges, `become_daemon`, `_create_pid_file`, install the SIGTERM
handler and log `Starting`.  Result `.loop` means the detached process
entered the run loop with the returned world. -/
def Initd.start (user : String) (env : Env) : Outcome :=
  match env.world.pidFile with
  | some s =>
    match parsePyInt s with
    | none => ⟨.raised .valueError, env.world, []⟩
    | some pid =>
      if os_kill_check env.world pid then
        ⟨.ret, env.world, [Eff.logWarn "Daemon already running."]⟩
      else Initd.start_after_probe user env
  | none => Initd.start_after_probe user env

/-- `Initd.stop`: read the pid file (absence, i.e. `IOError` with
`ENOENT`, means already stopped); send SIGTERM to the recorded pid; if
delivery fails, warn and remove the stale pid file; otherwise block,
polling, until the target's own loop exit removes the pid file.  The
polling dots are elided from the trace; the post-state of the delivered
branch reflects the target daemon having exited and removed its pid file
(which is what ends the `while os.path.exists` poll). -/
def Initd.stop (env : Env) : Outcome :=
  match env.world.pidFile with
  | none => ⟨.ret, env.world, [Eff.stdout "Stopped.\n"]⟩
  | some s =>
    match parsePyInt s with
    | none => ⟨.raised .valueError, env.world, []⟩
    | some pid =>
      if os_kill_check env.world pid then
        ⟨.ret, { pidFile := none, livePids := env.world.livePids.filter (· ≠ pid) },
          [Eff.stdout "Stopping.", Eff.kill pid 15, Eff.stdout "\n"]⟩
      else
        ⟨.ret, { env.world with pidFile := none },
          [Eff.stdout "Stopping.", Eff.logWarn "Could not kill process", Eff.removePid]⟩

/-- `Initd.status`: report `Running.` when the pid file names a live pid,
`Stopped.` otherwise. -/
def Initd.status (env : Env) : Outcome :=
  match env.world.pidFile with
  | none => ⟨.ret, env.world, [Eff.stdout "Stopped.\n"]⟩
  | some s =>
    match parsePyInt s with
    | none => ⟨.raised .valueError, env.world, []⟩
    | some pid =>
      if os_kill_check env.world pid then ⟨.ret, env.world, [Eff.stdout "Running.\n"]⟩
      else ⟨.ret, env.world, [Eff.stdout "Stopped.\n"]⟩

/-- `Initd.restart`: `if os.path.exists(self.pid_file): self.stop(...)`;
then `print('Starting.')` and `self.start(run, exit)`.  An exception
raised by `stop` propagates before the print. -/
def Initd.restart (user : String) (env : Env) : Outcome :=
  if os_path_exists env.world then
    let o := Initd.stop env
    match o.result with
    | .ret =>
      let o2 := Initd.start user { env with world := o.world }
      ⟨o2.result, o2.world, o.trace ++ [Eff.stdout "Starting.\n"] ++ o2.trace⟩
    | r => ⟨r, o.world, o.trace⟩
  else
    let o2 := Initd.start user env
    ⟨o2.result, o2.world, [Eff.stdout "Starting.\n"] ++ o2.trace⟩

/-- The sequential composition the spec describes for `restart`: "if a pid
file exists, perform `stop`'s blocking wait; then perform `start`
unconditionally".  Stated from the spec's words, for comparison with
`Initd.restart`. -/
def spec_stop_then_start (user : String) (env : Env) : Outcome :=
  if os_path_exists env.world then
    let o := Initd.stop env
    match o.result with
    | .ret =>
      let o2 := Initd.start user { env with world := o.world }
      ⟨o2.result, o2.world, o.trace ++ o2.trace⟩
    | r => ⟨r, o.world, o.trace⟩
  else Initd.start user env

/-!
The run loop and signal handling of `Initd.start` (lines 139-184).

`running = [True]`; `cb_term_handler` (installed on SIGTERM) calls the
`exit` callback if one was given, sets `running[0] = False`, installs
`cb_alrm_handler` on SIGALRM and arms `signal.alarm(5)`;
`cb_alrm_handler` logs a warning and calls `sys.exit(1)` — the resulting
`SystemExit` unwinds through the loop's `try/finally`, so
`os.remove(self.pid_file)` runs before the process dies.  The loop body
`while running[0]: try: run() except Exception: logger.exception(...)`
catches every exception from `run()`; on normal loop exit the `finally`
removes the pid file and logs `Exiting.`.

Signals are delivered asynchronously but, per the single-threaded model,
interrupt the loop between iterations: an execution is driven by a
schedule giving, before each evaluation of the `while` condition, the
batch of signals delivered at that point.  A schedule is finite, so an
execution whose schedule runs out is simply observed up to that horizon
(the loop is still running then).
-/

/-- A signal delivered to the daemon process. -/
inductive Sig where
  | term
  | alrm
  deriving DecidableEq, Repr

/-- State of the detached daemon process while `Initd.start` runs its
loop. -/
structure LoopState where
  world : World
  /-- the `running[0]` flag. -/
  running : Bool
  /-- number of invocations of the `exit` callback so far. -/
  exitCalls : Nat
  /-- whether `cb_alrm_handler` is installed and `signal.alarm(5)` armed. -/
  alarmArmed : Bool
  /-- number of invocations of `run()` so far. -/
  iters : Nat
  /-- `some r` once the process has left the loop (normally or by force). -/
  finished : Option VerbResult
  deriving DecidableEq, Repr

/-- The loop state `Initd.start` enters the run loop with. -/
def initLoopState (w : World) : LoopState :=
  ⟨w, true, 0, false, 0, none⟩

/-- `cb_term_handler`: invoked on each delivery of SIGTERM.  If an `exit`
callback was given it is called synchronously (after a debug log); then
`running[0]` is cleared; then `cb_alrm_handler` is installed and a
5-second alarm armed. -/
def cb_term_handler (hasExit : Bool) (s : LoopState) : LoopState × List Eff :=
  ({ s with running := false,
            exitCalls := s.exitCalls + (if hasExit then 1 else 0),
            alarmArmed := true },
   (if hasExit then [Eff.logDebug "Calling exit handler", Eff.callExit] else [])
     ++ [Eff.setStopFlag, Eff.armAlarm 5])

/-- `cb_alrm_handler`: invoked when the armed alarm expires.  Logs a
warning and calls `sys.exit(1)`; the `SystemExit` unwinds through the
loop's `finally`, which removes the pid file, and the process dies with
status 1.  (If the pid file were already gone, the `finally`'s
`os.remove` itself raises and the process still dies abnormally.) -/
def cb_alrm_handler (s : LoopState) : LoopState × List Eff :=
  match os_remove s.world with
  | .ok w' =>
    ({ s with world := w', finished := some (.fatalExit 1) },
     [Eff.logWarn "Could not exit gracefully.  Forcefully exiting.", Eff.removePid])
  | .error e =>
    ({ s with finished := some (.raised e) },
     [Eff.logWarn "Could not exit gracefully.  Forcefully exiting."])

/-- Deliver a batch of pending signals to the daemon.  A SIGALRM is acted
on only when the alarm is armed (the handler is installed only inside
`cb_term_handler`); nothing is delivered to a process that has already
terminated. -/
def deliverSigs (hasExit : Bool) : List Sig → LoopState → LoopState × List Eff
  | [], s => (s, [])
  | sig :: rest, s =>
    if s.finished.isSome then (s, [])
    else
      match sig with
      | .term =>
        let p := cb_term_handler hasExit s
        let q := deliverSigs hasExit rest p.1
        (q.1, p.2 ++ q.2)
      | .alrm =>
        if s.alarmArmed then
          let p := cb_alrm_handler s
          let q := deliverSigs hasExit rest p.1
          (q.1, p.2 ++ q.2)
        else deliverSigs hasExit rest s

/-- Trace of one loop iteration: the `while` condition observed true,
`run()` invoked (its invocation index recorded), and — when `run()` raises
— `logger.exception` on the caught exception. -/
def iterTrace (runExc : Nat → Bool) (i : Nat) : List Eff :=
  [Eff.observeFlag true, Eff.callRun i]
    ++ (if runExc i then [Eff.logException] else [])

/-- The run loop of `Initd.start`, driven by a schedule: before each
evaluation of the `while running[0]` condition the scheduled batch of
signals is delivered.  `runExc i` says whether the `i`-th invocation of
`run()` raises an exception (caught and logged by the loop).  When the
condition reads false the loop exits and the `finally` removes the pid
file and logs `Exiting.`; if the pid file is already gone that removal
raises out of the process.  An exhausted schedule ends observation with
the loop still running. -/
def runLoop (hasExit : Bool) (runExc : Nat → Bool) :
    List (List Sig) → LoopState → LoopState × List Eff
  | [], s => (s, [])
  | batch :: rest, s =>
    let p := deliverSigs hasExit batch s
    let s1 := p.1
    if s1.finished.isSome then (s1, p.2)
    else if s1.running then
      let q := runLoop hasExit runExc rest { s1 with iters := s1.iters + 1 }
      (q.1, p.2 ++ iterTrace runExc s1.iters ++ q.2)
    else
      match os_remove s1.world with
      | .ok w' =>
        ({ s1 with world := w', finished := some .ret },
         p.2 ++ [Eff.observeFlag false, Eff.removePid, Eff.logInfo "Exiting."])
      | .error e =>
        ({ s1 with finished := some (.raised e) },
         p.2 ++ [Eff.observeFlag false])

/-- Trace of `n` consecutive signal-free loop iterations starting at
invocation index `i`. -/
def expectedTrace (runExc : Nat → Bool) : Nat → Nat → List Eff
  | _, 0 => []
  | i, Nat.succ n => iterTrace runExc i ++ expectedTrace runExc (i + 1) n

/-!  Supporting lemmas. -/

theorem cb_term_handler_finished (hasExit : Bool) (s : LoopState) :
    (cb_term_handler hasExit s).1.finished = s.finished := rfl

theorem cb_term_handler_exitCalls (s : LoopState) :
    (cb_term_handler true s).1.exitCalls = s.exitCalls + 1 := rfl

theorem deliverSigs_term_step (hasExit : Bool) (rest : List Sig) (s : LoopState)
    (hf : s.finished = none) :
    deliverSigs hasExit (Sig.term :: rest) s
      = ((deliverSigs hasExit rest (cb_term_handler hasExit s).1).1,
         (cb_term_handler hasExit s).2
           ++ (deliverSigs hasExit rest (cb_term_handler hasExit s).1).2) := by
  simp [deliverSigs, hf]

theorem deliverSigs_term_count (sigs : List Sig) (s : LoopState)
    (hf : s.finished = none) (hall : ∀ x ∈ sigs, x = Sig.term) :
    (deliverSigs true sigs s).1.exitCalls = s.exitCalls + sigs.length := by
  induction sigs generalizing s with
  | nil => simp [deliverSigs]
  | cons c rest ih =>
    have hc : c = Sig.term := hall c (List.mem_cons_self c rest)
    subst hc
    have hrest : ∀ x ∈ rest, x = Sig.term := fun x hx => hall x (List.mem_cons_of_mem _ hx)
    have hfin : (cb_term_handler true s).1.finished = none := hf
    rw [deliverSigs_term_step true rest s hf]
    have h2 := ih (cb_term_handler true s).1 hfin hrest
    rw [h2, cb_term_handler_exitCalls, List.length_cons]
    omega

theorem runLoop_iter_step (hasExit : Bool) (runExc : Nat → Bool)
    (rest : List (List Sig)) (s : LoopState)
    (hr : s.running = true) (hf : s.finished = none) :
    runLoop hasExit runExc ([] :: rest) s
      = ((runLoop hasExit runExc rest { s with iters := s.iters + 1 }).1,
         iterTrace runExc s.iters
           ++ (runLoop hasExit runExc rest { s with iters := s.iters + 1 }).2) := by
  simp [runLoop, deliverSigs, hf, hr]

theorem runLoop_no_sigs (hasExit : Bool) (runExc : Nat → Bool) (n : Nat) (s : LoopState)
    (hr : s.running = true) (hf : s.finished = none) :
    runLoop hasExit runExc (List.replicate n []) s
      = ({ s with iters := s.iters + n }, expectedTrace runExc s.iters n) := by
  induction n generalizing s with
  | zero => simp [runLoop, List.replicate, expectedTrace]
  | succ n ih =>
    rw [List.replicate_succ, runLoop_iter_step hasExit runExc _ s hr hf,
      ih { s with iters := s.iters + 1 } hr hf]
    show ({ s with iters := s.iters + 1 + n },
        iterTrace runExc s.iters ++ expectedTrace runExc (s.iters + 1) n)
      = ({ s with iters := s.iters + (n + 1) }, expectedTrace runExc s.iters (n + 1))
    rw [show s.iters + 1 + n = s.iters + (n + 1) from by omega]
    rfl

theorem callRun_mem_expectedTrace (runExc : Nat → Bool) (n j i : Nat)
    (h1 : j ≤ i) (h2 : i < j + n) :
    Eff.callRun i ∈ expectedTrace runExc j n := by
  induction n generalizing j with
  | zero => omega
  | succ n ih =>
    simp only [expectedTrace, List.mem_append]
    rcases Nat.eq_or_lt_of_le h1 with rfl | hlt
    · exact Or.inl (by simp [iterTrace])
    · exact Or.inr (ih (j + 1) hlt (by omega))

theorem logException_mem_expectedTrace (runExc : Nat → Bool) (n j i : Nat)
    (h1 : j ≤ i) (h2 : i < j + n) (hexc : runExc i = true) :
    Eff.logException ∈ expectedTrace runExc j n := by
  induction n generalizing j with
  | zero => omega
  | succ n ih =>
    simp only [expectedTrace, List.mem_append]
    rcases Nat.eq_or_lt_of_le h1 with rfl | hlt
    · exact Or.inl (by simp [iterTrace, hexc])
    · exact Or.inr (ih (j + 1) hlt (by omega))

theorem start_after_probe_loop (user : String) (env : Env)
    (h : (Initd.start_after_probe user env).result = .loop) :
    Initd.start_after_probe user env
      = ⟨.loop, { env.world with pidFile := some (toString env.detachedPid) },
         (if user = "" then [] else [Eff.setUser user])
           ++ [Eff.daemonize, Eff.writePid env.detachedPid, Eff.logInfo "Starting"]⟩ := by
  by_cases hu : user = "" <;> by_cases hk : env.userKnown <;>
    by_cases hs : env.setuidOk <;> by_cases hw : env.pidWriteOk <;>
    simp_all [Initd.start_after_probe, Initd.drop_privileges, Initd.create_pid_file]

theorem start_loop_shape (user : String) (env : Env)
    (h : (Initd.start user env).result = .loop) :
    Initd.start user env
      = ⟨.loop, { env.world with pidFile := some (toString env.detachedPid) },
         (if user = "" then [] else [Eff.setUser user])
           ++ [Eff.daemonize, Eff.writePid env.detachedPid, Eff.logInfo "Starting"]⟩ := by
  cases hpf : env.world.pidFile with
  | none =>
    have hs : Initd.start user env = Initd.start_after_probe user env := by
      simp [Initd.start, hpf]
    rw [hs] at h ⊢
    exact start_after_probe_loop user env h
  | some s =>
    cases hpi : parsePyInt s with
    | none =>
      have hs : Initd.start user env = ⟨.raised .valueError, env.world, []⟩ := by
        simp [Initd.start, hpf, hpi]
      rw [hs] at h
      simp at h
    | some pid =>
      by_cases hl : os_kill_check env.world pid = true
      · have hs : Initd.start user env
            = ⟨.ret, env.world, [Eff.logWarn "Daemon already running."]⟩ := by
          simp [Initd.start, hpf, hpi, hl]
        rw [hs] at h
        simp at h
      · have hs : Initd.start user env = Initd.start_after_probe user env := by
          simp [Initd.start, hpf, hpi, hl]
        rw [hs] at h ⊢
        exact start_after_probe_loop user env h

/-!  Claims. -/

/-- C1: when the termination-signal handler `cb_term_handler` runs it
performs, in order: (a) the host-supplied `exit` callback, synchronously,
when one was given; (b) setting the stop-requested flag consulted by the
run loop; (c) arming a 5-second escalation alarm whose expiry, if the run
loop has not yet exited, forces termination of the process with the
non-zero status 1. -/
theorem term_handler_order_and_escalation (s t : LoopState)
    (harm : t.alarmArmed = true) (hfin : t.finished = none)
    (hpf : t.world.pidFile.isSome = true) :
    (cb_term_handler true s).2
        = [Eff.logDebug "Calling exit handler", Eff.callExit,
           Eff.setStopFlag, Eff.armAlarm 5]
    ∧ (cb_term_handler false s).2 = [Eff.setStopFlag, Eff.armAlarm 5]
    ∧ (cb_term_handler true s).1.running = false
    ∧ (cb_term_handler true s).1.alarmArmed = true
    ∧ (deliverSigs true [Sig.alrm] t).1.finished = some (.fatalExit 1) := by
  obtain ⟨c, hc⟩ := Option.isSome_iff_exists.mp hpf
  refine ⟨rfl, rfl, rfl, rfl, ?_⟩
  simp [deliverSigs, hfin, harm, cb_alrm_handler, os_remove, hc]

theorem term_handler_order_and_escalation_witness :
    (cb_term_handler true (initLoopState ⟨some "7", []⟩)).2
        = [Eff.logDebug "Calling exit handler", Eff.callExit,
           Eff.setStopFlag, Eff.armAlarm 5]
    ∧ (cb_term_handler false (initLoopState ⟨some "7", []⟩)).2
        = [Eff.setStopFlag, Eff.armAlarm 5]
    ∧ (cb_term_handler true (initLoopState ⟨some "7", []⟩)).1.running = false
    ∧ (cb_term_handler true (initLoopState ⟨some "7", []⟩)).1.alarmArmed = true
    ∧ (deliverSigs true [Sig.alrm]
          (⟨⟨some "7", []⟩, false, 1, true, 0, none⟩ : LoopState)).1.finished
        = some (.fatalExit 1) :=
  term_handler_order_and_escalation (initLoopState ⟨some "7", []⟩)
    ⟨⟨some "7", []⟩, false, 1, true, 0, none⟩ rfl rfl rfl

/-- C2: when the pid file exists and names a pid for which the liveness
probe succeeds, `start` logs a warning and returns with no side effects:
the world is unchanged and the only effect is the warning — no
daemonization, no privilege drop, no pid-file write, no run loop. -/
theorem start_already_running_noop (user : String) (env : Env) (s : String) (pid : Int)
    (hf : env.world.pidFile = some s) (hp : parsePyInt s = some pid)
    (hl : os_kill_check env.world pid = true) :
    Initd.start user env
      = ⟨.ret, env.world, [Eff.logWarn "Daemon already running."]⟩ := by
  simp [Initd.start, hf, hp, hl]

theorem start_already_running_noop_witness :
    Initd.start "" ⟨⟨some "12", [12]⟩, 1, 2, true, true, true⟩
      = ⟨.ret, ⟨some "12", [12]⟩, [Eff.logWarn "Daemon already running."]⟩ :=
  start_already_running_noop "" ⟨⟨some "12", [12]⟩, 1, 2, true, true, true⟩ "12" 12
    rfl (by decide) (by decide)

/-- C3: on every `start` that enters the run loop, the pid file is
written only after the daemonization step (no pid-file write precedes
`become_daemon` in the trace), and it records the detached process's own
pid — never the pre-fork parent's. -/
theorem pid_file_written_after_detach (user : String) (env : Env)
    (henter : (Initd.start user env).result = .loop) :
    ∃ pre,
      (Initd.start user env).trace
          = pre ++ [Eff.daemonize, Eff.writePid env.detachedPid, Eff.logInfo "Starting"]
      ∧ (∀ p, Eff.writePid p ∉ pre)
      ∧ (Initd.start user env).world.pidFile = some (toString env.detachedPid)
      ∧ (env.detachedPid ≠ env.parentPid →
          Eff.writePid env.parentPid ∉ (Initd.start user env).trace) := by
  have h1 := start_loop_shape user env henter
  refine ⟨if user = "" then [] else [Eff.setUser user], ?_, ?_, ?_, ?_⟩
  · rw [h1]
  · intro p
    by_cases hu : user = "" <;> simp [hu]
  · rw [h1]
  · intro hne
    have hne' : env.parentPid ≠ env.detachedPid := Ne.symm hne
    rw [h1]
    by_cases hu : user = "" <;> simp [hu, hne']

theorem pid_file_written_after_detach_witness :
    ∃ pre,
      (Initd.start "" ⟨⟨none, []⟩, 41, 42, true, true, true⟩).trace
          = pre ++ [Eff.daemonize, Eff.writePid 42, Eff.logInfo "Starting"]
      ∧ (∀ p, Eff.writePid p ∉ pre)
      ∧ (Initd.start "" ⟨⟨none, []⟩, 41, 42, true, true, true⟩).world.pidFile
          = some (toString (42 : Int))
      ∧ ((42 : Int) ≠ 41 →
          Eff.writePid 41 ∉ (Initd.start "" ⟨⟨none, []⟩, 41, 42, true, true, true⟩).trace) :=
  pid_file_written_after_detach "" ⟨⟨none, []⟩, 41, 42, true, true, true⟩ (by decide)

/-- C4: for every behavior of the `run` callback — including raising an
exception on any set of iterations — a signal-free execution of the run
loop performs one `run()` invocation per loop check, logs each exception
and proceeds to the next iteration, and never ends on its own: after `n`
checks the flag is still set, the process has not terminated, every
invocation index below `n` was reached (so a `run()` raising on its third
invocation is still followed by a fourth), and each raising iteration was
logged. -/
theorem run_loop_survives_run_exceptions (hasExit : Bool) (runExc : Nat → Bool)
    (n : Nat) (w : World) :
    (runLoop hasExit runExc (List.replicate n []) (initLoopState w)).1
        = { initLoopState w with iters := n }
    ∧ (runLoop hasExit runExc (List.replicate n []) (initLoopState w)).2
        = expectedTrace runExc 0 n
    ∧ (∀ i, i < n →
        Eff.callRun i ∈ (runLoop hasExit runExc (List.replicate n []) (initLoopState w)).2)
    ∧ (∀ i, i < n → runExc i = true →
        Eff.logException
          ∈ (runLoop hasExit runExc (List.replicate n []) (initLoopState w)).2) := by
  have h := runLoop_no_sigs hasExit runExc n (initLoopState w) rfl rfl
  rw [h]
  refine ⟨by simp [initLoopState], rfl, ?_, ?_⟩
  · intro i hi
    exact callRun_mem_expectedTrace runExc n 0 i (Nat.zero_le i) (by omega)
  · intro i hi hexc
    exact logException_mem_expectedTrace runExc n 0 i (Nat.zero_le i) (by omega) hexc

theorem run_loop_survives_run_exceptions_witness :
    Eff.callRun 3
      ∈ (runLoop false (fun i => i == 2) (List.replicate 4 [])
          (initLoopState ⟨some "1", []⟩)).2 :=
  (run_loop_survives_run_exceptions false (fun i => i == 2) 4 ⟨some "1", []⟩).2.2.1 3
    (by decide)

/-- C5: `restart` is the sequential composition the spec describes: when
the pid file exists it performs `stop`'s blocking wait, and in all cases
it then performs `start`; its result and post-state equal those of that
composition (`spec_stop_then_start`). -/
theorem restart_eq_stop_then_start (user : String) (env : Env) :
    (Initd.restart user env).result = (spec_stop_then_start user env).result
    ∧ (Initd.restart user env).world = (spec_stop_then_start user env).world := by
  unfold Initd.restart spec_stop_then_start
  by_cases h : os_path_exists env.world = true
  · simp only [h, if_true]
    cases hr : (Initd.stop env).result <;> simp
  · simp only [h, if_false]
    simp

/-- C6: when the pid file exists, parses, but the termination signal
cannot be delivered to the recorded pid, `stop` logs a warning, removes
the pid file, and returns successfully — no exception propagates. -/
theorem stop_stale_pid_self_heals (env : Env) (s : String) (pid : Int)
    (hf : env.world.pidFile = some s) (hp : parsePyInt s = some pid)
    (hd : os_kill_check env.world pid = false) :
    Initd.stop env
      = ⟨.ret, { env.world with pidFile := none },
         [Eff.stdout "Stopping.", Eff.logWarn "Could not kill process", Eff.removePid]⟩ := by
  simp [Initd.stop, hf, hp, hd]

theorem stop_stale_pid_self_heals_witness :
    Initd.stop ⟨⟨some "99", []⟩, 1, 2, true, true, true⟩
      = ⟨.ret, ⟨none, []⟩,
         [Eff.stdout "Stopping.", Eff.logWarn "Could not kill process", Eff.removePid]⟩ :=
  stop_stale_pid_self_heals ⟨⟨some "99", []⟩, 1, 2, true, true, true⟩ "99" 99
    rfl (by decide) (by decide)

/-- C7: when the pid file does not exist, `stop` prints `Stopped.` and
returns without sending any signal and without modifying any state. -/
theorem stop_no_pid_file_noop (env : Env) (hf : env.world.pidFile = none) :
    Initd.stop env = ⟨.ret, env.world, [Eff.stdout "Stopped.\n"]⟩
    ∧ ∀ p n, Eff.kill p n ∉ (Initd.stop env).trace := by
  have h : Initd.stop env = ⟨.ret, env.world, [Eff.stdout "Stopped.\n"]⟩ := by
    simp [Initd.stop, hf]
  refine ⟨h, ?_⟩
  rw [h]
  simp

theorem stop_no_pid_file_noop_witness :
    Initd.stop ⟨⟨none, []⟩, 1, 2, true, true, true⟩
        = ⟨.ret, ⟨none, []⟩, [Eff.stdout "Stopped.\n"]⟩
    ∧ ∀ p n, Eff.kill p n ∉ (Initd.stop ⟨⟨none, []⟩, 1, 2, true, true, true⟩).trace :=
  stop_no_pid_file_noop ⟨⟨none, []⟩, 1, 2, true, true, true⟩ rfl

/-- C8 (counterexample): removal of the pid file is not idempotent —
`os.remove` on an absent pid file raises `FileNotFoundError`, and the
unconditional pid-file removal on run-loop exit raises rather than
completing when the file has already been deleted. -/
theorem pid_file_removal_not_idempotent :
    os_remove ⟨none, []⟩ = .error PyExc.fileNotFound
    ∧ (runLoop true (fun _ => false) [[Sig.term]] (initLoopState ⟨none, []⟩)).1.finished
        = some (.raised .fileNotFound) :=
  ⟨rfl, rfl⟩

/-- C8 (amended): removing the pid file when it is present succeeds, and
the run-loop exit path then completes normally with the file gone; but
performing the removal when the pid file is absent raises
`FileNotFoundError` — in particular the unconditional removal on run-loop
exit raises if the file has already been deleted. -/
theorem pid_file_removal_raises_when_absent (w v : World) (hasExit : Bool)
    (runExc : Nat → Bool) (hn : w.pidFile = none) (hs : v.pidFile.isSome = true) :
    os_remove w = .error PyExc.fileNotFound
    ∧ os_remove v = .ok { v with pidFile := none }
    ∧ (runLoop hasExit runExc [[Sig.term]] (initLoopState w)).1.finished
        = some (.raised .fileNotFound)
    ∧ (runLoop hasExit runExc [[Sig.term]] (initLoopState v)).1.finished = some .ret
    ∧ (runLoop hasExit runExc [[Sig.term]] (initLoopState v)).1.world.pidFile = none := by
  obtain ⟨c, hc⟩ := Option.isSome_iff_exists.mp hs
  refine ⟨by simp [os_remove, hn], by simp [os_remove, hc], ?_, ?_, ?_⟩ <;>
    cases hasExit <;>
    simp [runLoop, deliverSigs, cb_term_handler, initLoopState, os_remove, hn, hc]

theorem pid_file_removal_raises_when_absent_witness :
    os_remove ⟨none, []⟩ = .error PyExc.fileNotFound
    ∧ os_remove ⟨some "1", []⟩ = .ok { (⟨some "1", []⟩ : World) with pidFile := none }
    ∧ (runLoop true (fun _ => false) [[Sig.term]] (initLoopState ⟨none, []⟩)).1.finished
        = some (.raised .fileNotFound)
    ∧ (runLoop true (fun _ => false) [[Sig.term]] (initLoopState ⟨some "1", []⟩)).1.finished
        = some .ret
    ∧ (runLoop true (fun _ => false) [[Sig.term]]
          (initLoopState ⟨some "1", []⟩)).1.world.pidFile = none :=
  pid_file_removal_raises_when_absent ⟨none, []⟩ ⟨some "1", []⟩ true (fun _ => false)
    rfl rfl

/-- C9 (counterexample): the SIGTERM handler stays installed, so two
termination signals delivered before the loop next observes the flag
invoke the `exit` callback twice — refuting "invoked at most once even if
multiple termination signals are delivered". -/
theorem exit_callback_invoked_twice :
    (runLoop true (fun _ => false) [[Sig.term, Sig.term]]
        (initLoopState ⟨some "1", []⟩)).1.exitCalls = 2 :=
  rfl

/-- C9 (amended): the `exit` callback is invoked once per delivered
termination signal — so several deliveries invoke it several times — and
each invocation happens inside the handler before the stop-requested flag
is set, hence before the run loop can observe that flag. -/
theorem exit_callback_once_per_term_signal (s : LoopState) (sigs : List Sig)
    (hf : s.finished = none) (hall : ∀ x ∈ sigs, x = Sig.term) :
    (deliverSigs true sigs s).1.exitCalls = s.exitCalls + sigs.length
    ∧ (cb_term_handler true s).2
        = [Eff.logDebug "Calling exit handler", Eff.callExit,
           Eff.setStopFlag, Eff.armAlarm 5] :=
  ⟨deliverSigs_term_count sigs s hf hall, rfl⟩

theorem exit_callback_once_per_term_signal_witness :
    (deliverSigs true [Sig.term, Sig.term] (initLoopState ⟨some "1", []⟩)).1.exitCalls
        = (initLoopState ⟨some "1", []⟩).exitCalls + [Sig.term, Sig.term].length
    ∧ (cb_term_handler true (initLoopState ⟨some "1", []⟩)).2
        = [Eff.logDebug "Calling exit handler", Eff.callExit,
           Eff.setStopFlag, Eff.armAlarm 5] :=
  exit_callback_once_per_term_signal (initLoopState ⟨some "1", []⟩)
    [Sig.term, Sig.term] rfl (by decide)

/-- C10: when the pid file exists but its contents are not parseable as a
decimal integer, `start`, `stop` and `status` all raise an uncaught
`ValueError`: no verb completes, reports an outcome, or cleans up the
malformed file (the world is unchanged and no effect is emitted). -/
theorem malformed_pid_file_raises_value_error (user : String) (env : Env) (s : String)
    (hf : env.world.pidFile = some s) (hbad : parsePyInt s = none) :
    Initd.start user env = ⟨.raised .valueError, env.world, []⟩
    ∧ Initd.stop env = ⟨.raised .valueError, env.world, []⟩
    ∧ Initd.status env = ⟨.raised .valueError, env.world, []⟩ := by
  refine ⟨?_, ?_, ?_⟩ <;> simp [Initd.start, Initd.stop, Initd.status, hf, hbad]

theorem malformed_pid_file_raises_value_error_witness :
    Initd.start "" ⟨⟨some "garbage", []⟩, 1, 2, true, true, true⟩
        = ⟨.raised .valueError, ⟨some "garbage", []⟩, []⟩
    ∧ Initd.stop ⟨⟨some "garbage", []⟩, 1, 2, true, true, true⟩
        = ⟨.raised .valueError, ⟨some "garbage", []⟩, []⟩
    ∧ Initd.status ⟨⟨some "garbage", []⟩, 1, 2, true, true, true⟩
        = ⟨.raised .valueError, ⟨some "garbage", []⟩, []⟩ :=
  malformed_pid_file_raises_value_error "" ⟨⟨some "garbage", []⟩, 1, 2, true, true, true⟩
    "garbage" rfl (by decide)
